import Mathlib

/-!
Verification of the AT-command transaction engine and response parsers of the
PiCSQ repository (`modules/csq.py` / `csq.py`), via a shallow embedding: each
Python string primitive used by the code is modelled as an executable Lean
function with Python's semantics, and the response-processing pipelines are
translated statement by statement.
-/

namespace PiCSQ

/-! ## Python string primitives -/

/-- Does `pat` occur as a contiguous sublist of `s`? -/
def isInfixL (pat : List Char) : List Char → Bool
  | [] => pat.isEmpty
  | c :: rest => pat.isPrefixOf (c :: rest) || isInfixL pat rest

/-- Python substring test `pat in s`. -/
def pyContains (s pat : String) : Bool :=
  isInfixL pat.data s.data

/-- Membership of a character in a strip-set. -/
def memChars (chars : List Char) (c : Char) : Bool :=
  chars.contains c

/-- Python `s.strip(chars)`: remove leading and trailing characters drawn from
`chars` (a character set, not a substring). -/
def pyStripChars (s : String) (chars : List Char) : String :=
  ⟨((s.data.dropWhile (memChars chars)).reverse.dropWhile (memChars chars)).reverse⟩

/-- Python slice `s[a:b]` for `0 ≤ a ≤ b` (out-of-range bounds clamp). -/
def pySlice (s : String) (a b : Nat) : String :=
  ⟨(s.data.drop a).take (b - a)⟩

/-- Worker for `pyReplace`; the fuel is an upper bound on the number of steps,
each step consumes at least one character of the input. -/
def pyReplaceAux (pat rep : List Char) : Nat → List Char → List Char
  | _, [] => []
  | 0, s => s
  | fuel + 1, c :: rest =>
    if pat.isPrefixOf (c :: rest) then
      rep ++ pyReplaceAux pat rep fuel (List.drop pat.length (c :: rest))
    else
      c :: pyReplaceAux pat rep fuel rest

/-- Python `s.replace(pat, rep)` (all occurrences, left to right,
non-overlapping); `pat` is nonempty in every call site of the source. -/
def pyReplace (s pat rep : String) : String :=
  if pat.data.isEmpty then s
  else ⟨pyReplaceAux pat.data rep.data s.data.length s.data⟩

/-- Worker for `pySplit`; fuel bounds the number of consumed characters. -/
def pySplitAux (sep : List Char) : Nat → List Char → List Char → List String
  | 0, acc, s => [⟨acc.reverse ++ s⟩]
  | fuel + 1, acc, s =>
    match s with
    | [] => [⟨acc.reverse⟩]
    | c :: rest =>
      if sep.isPrefixOf (c :: rest) then
        ⟨acc.reverse⟩ :: pySplitAux sep fuel [] (List.drop sep.length (c :: rest))
      else
        pySplitAux sep fuel (c :: acc) rest

/-- Python `s.split(sep)` for a nonempty separator: split at every occurrence,
adjacent separators produce empty fields, and `"".split(sep) = [""]`. -/
def pySplit (s sep : String) : List String :=
  pySplitAux sep.data (s.data.length + 1) [] s.data

/-- Value of a nonempty all-digit character list. -/
def digitsVal? : List Char → Option Nat
  | [] => none
  | [c] => if c.isDigit then some (c.toNat - 48) else none
  | c :: rest =>
    match digitsVal? rest, (if c.isDigit then some (c.toNat - 48) else none) with
    | some r, some d =>
      some (d * 10 ^ rest.length + r)
    | _, _ => none

/-- Python `int(s)` on the strings this program feeds it: an optional sign
followed by at least one digit; anything else raises `ValueError` (`none`). -/
def pyInt? (s : String) : Option Int :=
  match s.data with
  | '-' :: rest => (digitsVal? rest).map (fun n => -(n : Int))
  | '+' :: rest => (digitsVal? rest).map (fun n => (n : Int))
  | l => (digitsVal? l).map (fun n => (n : Int))

/-- Exceptions this program's Python code can raise while parsing. -/
inductive PyErr
  | valueError
  | indexError
  deriving DecidableEq, Repr

/-- `int(s)` in the `Except` monad. -/
def pyIntE (s : String) : Except PyErr Int :=
  match pyInt? s with
  | some n => Except.ok n
  | none => Except.error PyErr.valueError

/-- Python list indexing `l[i]` for nonnegative `i` (`IndexError` when out of
range). -/
def pyIndex (l : List String) (i : Nat) : Except PyErr String :=
  match l.get? i with
  | some x => Except.ok x
  | none => Except.error PyErr.indexError

/-- Python `s[-1]` on a string (`IndexError` when empty). -/
def pyLastChar (s : String) : Except PyErr Char :=
  match s.data.getLast? with
  | some c => Except.ok c
  | none => Except.error PyErr.indexError

/-- Python `or` on two strings: the first operand when it is truthy
(nonempty), otherwise the second. -/
def pyOrStr (a b : String) : String :=
  if a = "" then b else a

/-- Python `str.upper` restricted to ASCII, as used on AT command lines. -/
def pyToUpper (s : String) : String :=
  ⟨s.data.map Char.toUpper⟩

/-! ## C1: the byte-polling loop of `cmd_query` / `AT_query`

`while self.ser.in_waiting == 0: time.sleep(wait)` — the loop polls the
serial object's `in_waiting` byte count and has no deadline of any kind.
`in_waiting` is modelled as a function from poll tick to available bytes, and
the loop as a fuel-indexed search for the first tick with data: `none` means
the loop has still not exited after `fuel` ticks. -/

def pollForData (in_waiting : Nat → Nat) : Nat → Nat → Option Nat
  | 0, _ => none
  | fuel + 1, k => if in_waiting k ≠ 0 then some k else pollForData in_waiting fuel (k + 1)

/-! ## C8: `await_gnss` polling helper -/

/-- The literal membership test of `await_gnss`:
`in {"$GPSACP: ,,,,,0,,,,,", "$GPSACP: ,,,,,1,,,,,"}`. -/
def gpsacpPending (s : String) : Bool :=
  s == "$GPSACP: ,,,,,0,,,,," || s == "$GPSACP: ,,,,,1,,,,,"

/-- Outcome of the `await_gnss` loop. `fixAcquired n` / `runtimeWarning n t`
record that `n` `AT$GPSACP` queries were issued; `t` is the `tries` value
interpolated into the raised `RuntimeWarning` message. -/
inductive AwaitGnssOutcome
  | fixAcquired (queries : Nat)
  | runtimeWarning (queries reportedTries : Nat)
  | fuelExhausted
  deriving DecidableEq, Repr

/-- The `while` loop of `await_gnss` (modules/csq.py lines 648-656): the loop
condition issues one `AT$GPSACP` query per evaluation; the body raises
`RuntimeWarning` once the counter `i` exceeds `tries`, otherwise sleeps and
increments `i`.  `resp q` is the device's reply to the `q`-th query
(0-indexed); `i` starts at 1 and `fuel = tries + 1` always suffices. -/
def await_gnss_loop (resp : Nat → String) (tries : Nat) : Nat → Nat → Nat → AwaitGnssOutcome
  | 0, _, _ => AwaitGnssOutcome.fuelExhausted
  | fuel + 1, i, q =>
    if gpsacpPending (resp q) then
      if tries < i then AwaitGnssOutcome.runtimeWarning (q + 1) tries
      else await_gnss_loop resp tries fuel (i + 1) (q + 1)
    else AwaitGnssOutcome.fixAcquired (q + 1)

/-- `await_gnss(tries, interval)`, abstracting real-time sleeps away and the
per-query device replies into `resp`. -/
def await_gnss (resp : Nat → String) (tries : Nat) : AwaitGnssOutcome :=
  await_gnss_loop resp tries (tries + 1) 1 0

/-! ## Theorems for C1 and C8 -/

/-- C1: the transaction engine does NOT time out on a silent device.  For a
device that never makes bytes available (`in_waiting` constantly 0), the
polling loop of `cmd_query` / `AT_query` has not exited after any number of
poll ticks: `cmd_query` never returns at all, so it cannot return a Timeout
error within read-timeout plus one poll-interval as the specification
requires. -/
theorem c1_poll_loop_never_exits :
    ∀ fuel k, pollForData (fun _ => 0) fuel k = none := by
  intro fuel
  induction fuel with
  | zero => intro k; rfl
  | succ n ih =>
    intro k
    simpa [pollForData] using ih (k + 1)

theorem await_gnss_loop_all_pending (resp : Nat → String) (tries : Nat)
    (hpend : ∀ n, gpsacpPending (resp n) = true) :
    ∀ fuel i q, i + fuel = tries + 2 → i ≤ tries + 1 →
      await_gnss_loop resp tries fuel i q = AwaitGnssOutcome.runtimeWarning (q + fuel) tries := by
  intro fuel
  induction fuel with
  | zero => intro i q hif hi; omega
  | succ n ih =>
    intro i q hif hi
    by_cases hlt : tries < i
    · have hn : n = 0 := by omega
      subst hn
      simp [await_gnss_loop, hpend q, hlt]
    · have hrec := ih (i + 1) (q + 1) (by omega) (by omega)
      simp only [await_gnss_loop, hpend q, if_true, hlt, if_false]
      rw [hrec]
      congr 1
      omega

theorem await_gnss_loop_fix (resp : Nat → String) (tries : Nat) :
    ∀ k fuel i q, k + i ≤ tries + 1 → i + fuel = tries + 2 →
      (∀ j, j < k → gpsacpPending (resp (q + j)) = true) →
      gpsacpPending (resp (q + k)) = false →
      await_gnss_loop resp tries fuel i q = AwaitGnssOutcome.fixAcquired (q + k + 1) := by
  intro k
  induction k with
  | zero =>
    intro fuel i q hk hif hpend hfix
    obtain ⟨n, rfl⟩ : ∃ n, fuel = n + 1 := ⟨tries + 1 - i, by omega⟩
    have hfix' : gpsacpPending (resp q) = false := by simpa using hfix
    simp [await_gnss_loop, hfix']
  | succ m ih =>
    intro fuel i q hk hif hpend hfix
    obtain ⟨n, rfl⟩ : ∃ n, fuel = n + 1 := ⟨tries + 1 - i, by omega⟩
    have h0 : gpsacpPending (resp q) = true := by simpa using hpend 0 (Nat.succ_pos m)
    have hlt : ¬ tries < i := by omega
    have hrec := ih n (i + 1) (q + 1) (by omega) (by omega)
      (fun j hj => by simpa [Nat.add_assoc, Nat.add_comm 1 j] using hpend (j + 1) (by omega))
      (by simpa [Nat.add_assoc, Nat.add_comm 1 m] using hfix)
    simp only [await_gnss_loop, h0, if_true, hlt, if_false]
    rw [hrec]
    congr 1
    omega

/-- C8 amended: `await_gnss(tries, interval)` re-queries the GNSS unit until a
non-pending reply arrives, but on a device that never produces a fix it issues
`tries + 1` queries — not at most `tries` — before giving up (the loop
condition runs one more query after the attempt counter has passed `tries`),
and the `RuntimeWarning` it raises reports the configured `tries` value.  When
the first non-pending reply is the `(k+1)`-th with `k ≤ tries`, it stops after
exactly `k + 1` queries. -/
theorem c8_await_gnss_amended :
    (∀ resp tries, (∀ n, gpsacpPending (resp n) = true) →
      await_gnss resp tries = AwaitGnssOutcome.runtimeWarning (tries + 1) tries) ∧
    (∀ resp tries k, k ≤ tries →
      (∀ j, j < k → gpsacpPending (resp j) = true) →
      gpsacpPending (resp k) = false →
      await_gnss resp tries = AwaitGnssOutcome.fixAcquired (k + 1)) := by
  constructor
  · intro resp tries hpend
    simpa using await_gnss_loop_all_pending resp tries hpend (tries + 1) 1 0 (by omega) (by omega)
  · intro resp tries k hk hpend hfix
    simpa using await_gnss_loop_fix resp tries k (tries + 1) 1 0 (by omega) (by omega)
      (fun j hj => by simpa using hpend j hj) (by simpa using hfix)

/-- C8 amended, witness: with `tries = 2` an always-pending device costs 3
queries and the warning reports 2; a device whose second reply carries a fix
stops after 2 queries. -/
theorem c8_await_gnss_amended_witness :
    await_gnss (fun _ => "$GPSACP: ,,,,,0,,,,,") 2 = AwaitGnssOutcome.runtimeWarning 3 2 ∧
    await_gnss (fun n => if n = 0 then "$GPSACP: ,,,,,1,,,,," else "$GPSACP: 023000.000,4121.1234N,07105.5678W,1.2,100.0,2,0.0,0.0,0.0,010625,05") 2
      = AwaitGnssOutcome.fixAcquired 2 := by
  constructor
  · exact c8_await_gnss_amended.1 (fun _ => "$GPSACP: ,,,,,0,,,,,") 2 (fun _ => rfl)
  · exact c8_await_gnss_amended.2 _ 2 1 (by decide)
      (fun j hj => by obtain rfl := Nat.lt_one_iff.mp hj; rfl) (by rfl)

/-- C8 counterexample: the claim says the helper gives up once "at most
`tries` queries have been made", but with `tries = 1` and a persistently
pending device it makes 2 queries before giving up. -/
theorem c8_counterexample :
    await_gnss (fun _ => "$GPSACP: ,,,,,0,,,,,") 1 = AwaitGnssOutcome.runtimeWarning 2 1 ∧
    ¬ (2 ≤ 1) := by
  constructor
  · decide
  · decide

/-! ## `datetime` fragments used by the parsers -/

/-- Two-digit zero padding, as `datetime.date.isoformat` /
`datetime.time.strftime` produce for month, day, hour, minute, second. -/
def pad2 (n : Nat) : String :=
  if n < 10 then "0" ++ toString n else toString n

/-- Four-digit zero padding for the year of `isoformat`. -/
def pad4 (n : Nat) : String :=
  if n < 10 then "000" ++ toString n
  else if n < 100 then "00" ++ toString n
  else if n < 1000 then "0" ++ toString n
  else toString n

/-- Gregorian leap-year rule, as `datetime` implements it. -/
def isLeapYear (y : Int) : Bool :=
  y % 4 == 0 && (y % 100 != 0 || y % 400 == 0)

/-- Number of days of month `m` of year `y`. -/
def pyDaysInMonth (y m : Int) : Int :=
  if m == 2 then (if isLeapYear y then 29 else 28)
  else if m == 4 || m == 6 || m == 9 || m == 11 then 30
  else 31

/-- `datetime.date(y, m, d).isoformat()`: validates the arguments
(`ValueError` outside `datetime`'s ranges) and renders `YYYY-MM-DD`. -/
def pyDateIso (y m d : Int) : Except PyErr String :=
  if 1 ≤ y ∧ y ≤ 9999 ∧ 1 ≤ m ∧ m ≤ 12 ∧ 1 ≤ d ∧ d ≤ pyDaysInMonth y m then
    Except.ok (pad4 y.toNat ++ "-" ++ pad2 m.toNat ++ "-" ++ pad2 d.toNat)
  else Except.error PyErr.valueError

/-- `datetime.time(h, mi, s, tzinfo=utc).strftime("%H:%M:%S")`: validates the
arguments and renders `HH:MM:SS`. -/
def pyTimeHMS (h mi s : Int) : Except PyErr String :=
  if 0 ≤ h ∧ h ≤ 23 ∧ 0 ≤ mi ∧ mi ≤ 59 ∧ 0 ≤ s ∧ s ≤ 59 then
    Except.ok (pad2 h.toNat ++ ":" ++ pad2 mi.toNat ++ ":" ++ pad2 s.toNat)
  else Except.error PyErr.valueError

/-! ## `parse_cclk` (modules/csq.py lines 171-193) -/

/-- `parse_cclk(AT_response)`: strip the `+CCLK: ` tag and the surrounding
quotes, split on `,`, and decode `yy/MM/dd` (century 2000+) and `HH:mm:ss`.
Returns the `(date, time)` pair. -/
def parse_cclk (AT_response : String) : Except PyErr (String × String) := do
  let modem_date_time := pySplit (pyStripChars (pyReplace AT_response "+CCLK: " "") ['"']) ","
  let d0 ← pyIndex modem_date_time 0
  let year ← pyIntE ("20" ++ pySlice d0 0 2)
  let month ← pyIntE (pySlice d0 3 5)
  let day ← pyIntE (pySlice d0 6 8)
  let date ← pyDateIso year month day
  let t1 ← pyIndex modem_date_time 1
  let hour ← pyIntE (pySlice t1 0 2)
  let minute ← pyIntE (pySlice t1 3 5)
  let second ← pyIntE (pySlice t1 6 8)
  let time ← pyTimeHMS hour minute second
  return (date, time)

/-! ## `parse_gpsacp` (modules/csq.py lines 133-169) -/

/-- The constant `parse_gpsacp` actually compares against.  The source writes
`(",,,,,0,,,,," or ",,,,,1,,,,,")`, and Python's `or` on two strings returns
the first truthy operand, so only the first literal survives. -/
def gpsacpNoFixLiteral : String :=
  pyOrStr ",,,,,0,,,,," ",,,,,1,,,,,"

/-- Return value of `parse_gpsacp`: either numeric coordinates with a GNSS
date and time, or the no-fix fallback where latitude and longitude are the
string `N/A` and date/time come from the modem clock. -/
inductive GpsacpResult
  | fix (date time : String) (lat lon : ℚ)
  | noFix (date time lat lon : String)
  deriving DecidableEq, Repr

/-- `parse_gpsacp(AT_response)`, statement by statement.  The numeric branch
converts `ddmm.mmmm` / `dddmm.mmmm` to `degrees + minutes/60 +
decimal_minutes/10000/60` and flips the sign on a trailing `S` / `W`; the
other branch falls back to `parse_cclk` on a fresh `AT+CCLK?` transaction,
whose response is passed in as `cclk_response`. -/
def parse_gpsacp (AT_response cclk_response : String) : Except PyErr GpsacpResult :=
  if AT_response ≠ gpsacpNoFixLiteral then do
    let gnss_values := pySplit (pyReplace AT_response "$GPSACP: " "") ","
    let gv9 ← pyIndex gnss_values 9
    let year ← pyIntE ("20" ++ pySlice gv9 4 6)
    let month ← pyIntE (pySlice gv9 2 4)
    let day ← pyIntE (pySlice gv9 0 2)
    let date ← pyDateIso year month day
    let gv0 ← pyIndex gnss_values 0
    let hour ← pyIntE (pySlice gv0 0 2)
    let minute ← pyIntE (pySlice gv0 2 4)
    let second ← pyIntE (pySlice gv0 4 6)
    let time ← pyTimeHMS hour minute second
    let gv1 ← pyIndex gnss_values 1
    let degrees ← pyIntE (pySlice gv1 0 2)
    let minutes ← pyIntE (pySlice gv1 2 4)
    let decimal_minutes ← pyIntE (pySlice gv1 5 9)
    let lat0 : ℚ := (degrees : ℚ) + (minutes : ℚ) / 60 + (decimal_minutes : ℚ) / 10000 / 60
    let latSign ← pyLastChar gv1
    let lat := if latSign = 'S' then -lat0 else lat0
    let gv2 ← pyIndex gnss_values 2
    let degreesLon ← pyIntE (pySlice gv2 0 3)
    let minutesLon ← pyIntE (pySlice gv2 3 5)
    let decimal_minutesLon ← pyIntE (pySlice gv2 6 10)
    let lon0 : ℚ := (degreesLon : ℚ) + (minutesLon : ℚ) / 60 + (decimal_minutesLon : ℚ) / 10000 / 60
    let lonSign ← pyLastChar gv2
    let lon := if lonSign = 'W' then -lon0 else lon0
    return GpsacpResult.fix date time lat lon
  else do
    let dt ← parse_cclk cclk_response
    return GpsacpResult.noFix dt.1 dt.2 "N/A" "N/A"

/-! ## The COPS field split (modules/csq.py line 695, smartpark_get_rx_stats.py line 53) -/

/-- `AT_query("AT+COPS?").replace("+COPS: ", "").split(sep=",")` — the field
split applied to the operator-selection information line. -/
def cops_values (response : String) : List String :=
  pySplit (pyReplace response "+COPS: " "") ","

/-! ## Theorems for C4, C5, C6 -/

/-- C4: the no-fix recognition is broken.  `parse_gpsacp` compares against
`(",,,,,0,,,,," or ",,,,,1,,,,,")`, which evaluates to the bare string
`",,,,,0,,,,,"`; the genuine no-fix responses — which carry the `$GPSACP: `
prefix, exactly the strings `await_gnss` (line 649) tests for — and the
bare `",,,,,1,,,,,"` form all take the numeric branch, where `int('')` on the
empty month field raises `ValueError` instead of producing the explicit no-fix
variant the claim requires.  Only the bare `",,,,,0,,,,,"` string is
recognized. -/
theorem c4_gpsacp_no_fix_mishandled :
    parse_gpsacp "$GPSACP: ,,,,,0,,,,," "+CCLK: \"25/06/01,02:30:00+00\"" =
      Except.error PyErr.valueError ∧
    parse_gpsacp "$GPSACP: ,,,,,1,,,,," "+CCLK: \"25/06/01,02:30:00+00\"" =
      Except.error PyErr.valueError ∧
    parse_gpsacp ",,,,,1,,,,," "+CCLK: \"25/06/01,02:30:00+00\"" =
      Except.error PyErr.valueError ∧
    parse_gpsacp ",,,,,0,,,,," "+CCLK: \"25/06/01,02:30:00+00\"" =
      Except.ok (GpsacpResult.noFix "2025-06-01" "02:30:00" "N/A" "N/A") := by
  refine ⟨rfl, rfl, rfl, rfl⟩

/-- C5: decoding the claim's concrete `$GPSACP` sentence.  Latitude
`4121.1234N` becomes `41 + 21/60 + 1234/10000/60 ≈ 41.352057`, longitude
`07105.5678W` becomes `-(71 + 5/60 + 5678/10000/60) ≈ -71.092797`, the date
field `010625` becomes `2025-06-01` (century 2000+), and the time field
`023000.000` becomes `02:30:00`; the swapped-hemisphere variant shows the sign
flips exactly on `S` / `W`. -/
theorem c5_gpsacp_decode :
    parse_gpsacp "$GPSACP: 023000.000,4121.1234N,07105.5678W,1.2,100.0,2,0.0,0.0,0.0,010625,05" "" =
      Except.ok (GpsacpResult.fix "2025-06-01" "02:30:00"
        (41 + 21/60 + 1234/10000/60) (-(71 + 5/60 + 5678/10000/60))) ∧
    parse_gpsacp "$GPSACP: 023000.000,4121.1234S,07105.5678E,1.2,100.0,2,0.0,0.0,0.0,010625,05" "" =
      Except.ok (GpsacpResult.fix "2025-06-01" "02:30:00"
        (-(41 + 21/60 + 1234/10000/60)) (71 + 5/60 + 5678/10000/60)) ∧
    |(41 + 21/60 + 1234/10000/60 : ℚ) - 41352057/1000000| < 1/1000000 ∧
    |(-(71 + 5/60 + 5678/10000/60) : ℚ) - (-71092797/1000000)| < 1/1000000 := by
  refine ⟨rfl, rfl, by rw [abs_lt]; constructor <;> norm_num, by rw [abs_lt]; constructor <;> norm_num⟩

/-- C6: the field split does NOT respect double quotes.  On
`+COPS: 0,0,"AT&T Mobile, Inc",8` the code's `split(sep=",")` cuts inside the
quoted operator name, so the field at index 2 — the one `sim_test` and
`smartpark_get_rx_stats.py` read the operator name from — is the fragment
`"AT&T Mobile` (and after their `strip('"')`, `AT&T Mobile`), not the intact
`AT&T Mobile, Inc` the claim requires. -/
theorem c6_quoted_comma_split_broken :
    cops_values "+COPS: 0,0,\"AT&T Mobile, Inc\",8" =
      ["0", "0", "\"AT&T Mobile", " Inc\"", "8"] ∧
    pyStripChars ((cops_values "+COPS: 0,0,\"AT&T Mobile, Inc\",8").getD 2 "") ['"'] =
      "AT&T Mobile" ∧
    "AT&T Mobile" ≠ "AT&T Mobile, Inc" := by
  refine ⟨by decide, by decide, by decide⟩

/-! ## `cmd_query` response processing (modules/csq.py lines 244-345)

The captured `response_lines` (the result of `self.sio.readlines()`) are
processed by two Python `for` loops that mutate the list while iterating —
`list.remove` / `list.index` always act on the FIRST occurrence of the
iterated value while the loop's internal index keeps advancing — then the
last element is popped as the result code and classified by substring tests.
Both loops are modelled index-by-index; the fuel argument equals the initial
list length, which bounds the number of loop iterations. -/

/-- The membership test `line in {'\r\n', ''}` of the first loop. -/
def isBlankLine (s : String) : Bool :=
  s == "\r\n" || s == ""

/-- Python `list.remove(x)`: delete the first occurrence of `x`. -/
def pyRemoveFirst (x : String) : List String → List String
  | [] => []
  | y :: rest => if y = x then rest else y :: pyRemoveFirst x rest

/-- The loop `for line in response_lines: if line in {'\r\n', ''}:
response_lines.remove(line)` — the iterator index `i` advances even when an
element is removed, so the element sliding into the vacated slot is skipped. -/
def pyRemoveLoop : Nat → List String → Nat → List String
  | 0, s, _ => s
  | fuel + 1, s, i =>
    match s.get? i with
    | none => s
    | some x =>
      if isBlankLine x then pyRemoveLoop fuel (pyRemoveFirst x s) (i + 1)
      else pyRemoveLoop fuel s (i + 1)

/-- First processing pass of `cmd_query` (lines 297-299). -/
def removeBlankLines (s : List String) : List String :=
  pyRemoveLoop s.length s 0

/-- `s.strip('\r\n')` as the code applies it to response lines. -/
def stripCRLF (s : String) : String :=
  pyStripChars s ['\r', '\n']

/-- `response_lines[response_lines.index(line)] = ...`: overwrite the first
occurrence of `x` with `y`. -/
def pySetFirst (x y : String) : List String → List String
  | [] => []
  | z :: rest => if z = x then y :: rest else z :: pySetFirst x y rest

/-- The loop `for line in response_lines: if '\r\n' in line:
response_lines[response_lines.index(line)] = line.strip('\r\n')`
(lines 302-304). -/
def pyStripLoop : Nat → List String → Nat → List String
  | 0, s, _ => s
  | fuel + 1, s, i =>
    match s.get? i with
    | none => s
    | some x =>
      if pyContains x "\r\n" then pyStripLoop fuel (pySetFirst x (stripCRLF x) s) (i + 1)
      else pyStripLoop fuel s (i + 1)

/-- Second processing pass of `cmd_query`. -/
def stripResponseLines (s : List String) : List String :=
  pyStripLoop s.length s 0

/-- Python truthiness of the `timeout` argument: `if timeout:` is taken for
any value other than `None` and `0`. -/
def pyTruthyFloat : Option ℚ → Bool
  | none => false
  | some t => t != 0

/-- `AT_commandline.upper().startswith('AT#HTTPRCV')`. -/
def startsWithHTTPRCV (cmd : String) : Bool :=
  "AT#HTTPRCV".data.isPrefixOf (pyToUpper cmd).data

/-- What one `cmd_query` call does, besides mutating the serial timeout:
return a value (single-line mode), return a line list (multiline mode), take
the `AT#HTTPRCV` special branch (not modelled further), raise
`ATCommandError` with the command line and result code interpolated into its
message, raise `ModemError` (no recognizable result code), or raise
`IndexError` (`pop` on an empty list). -/
inductive CmdQueryResult
  | value (s : String)
  | values (ls : List String)
  | httpBranch
  | atCommandError (cmd rc : String)
  | modemError
  | indexError
  deriving DecidableEq, Repr

/-- `cmd_query(AT_commandline, timeout, wait, multiline)` from the point
where the response has been captured: `response_lines` is the line list
`readlines()` produced and `ser_timeout` the serial handle's read-timeout
attribute on entry.  Returns the outcome paired with the read-timeout
attribute's final value: it is set to the override up front (line 254) and
restored only after the error checks have passed (lines 335-336), so a raise
leaves the override in place. -/
def cmd_query (AT_commandline : String) (timeout : Option ℚ) (multiline : Bool)
    (response_lines : List String) (ser_timeout : ℚ) : CmdQueryResult × ℚ :=
  let active := pyTruthyFloat timeout
  let ser1 := if active then timeout.getD ser_timeout else ser_timeout
  if startsWithHTTPRCV AT_commandline then (CmdQueryResult.httpBranch, ser1)
  else
    let s2 := stripResponseLines (removeBlankLines response_lines)
    match s2.getLast? with
    | none => (CmdQueryResult.indexError, ser1)
    | some result_code =>
      if pyContains result_code "OK" then
        let ser2 := if active then ser_timeout else ser1
        if multiline then (CmdQueryResult.values s2.dropLast, ser2)
        else
          match s2.dropLast with
          | [] => (CmdQueryResult.value "", ser2)
          | x :: _ => (CmdQueryResult.value x, ser2)
      else if pyContains result_code "ERROR" then
        (CmdQueryResult.atCommandError AT_commandline result_code, ser1)
      else (CmdQueryResult.modemError, ser1)

/-! ## `AT_query` response processing (csq.py lines 116-212, modules/csq.py
lines 348-444) -/

/-- Python `s.rpartition(sep)`: split at the LAST occurrence of `sep`,
`('', '', s)` when absent. -/
def pyRpartition (s sep : String) : String × String × String :=
  match ((List.range (s.data.length + 1)).filter
      (fun i => sep.data.isPrefixOf (s.data.drop i))).getLast? with
  | none => ("", "", s)
  | some i => (⟨s.data.take i⟩, sep, ⟨s.data.drop (i + sep.data.length)⟩)

/-- What one `AT_query` call does once the raw `response` string has been
captured: return the payload string, return `None` (success without payload,
or `silent`), take the `#CSURV` branch (not modelled further), raise the
AT-command error (`RuntimeError` in csq.py, `ATCommandError` in
modules/csq.py), raise the no-result-code error, or hit the `NameError` that
a response without any `\r\n` leaves behind (`result_code` unbound). -/
inductive ATQueryResult
  | retValue (s : String)
  | retNone
  | csurvBranch
  | atCommandError (cmd rc : String)
  | modemError
  | nameError
  deriving DecidableEq, Repr

/-- `AT_query(AT_commandline, ...)` response handling: partition the response
at the last `\r\n\r\n` into payload and result code (both stripped of CR/LF),
or treat the whole stripped response as the result code when no `\r\n\r\n`
occurs, then classify by the same `"OK" in ...` / `"ERROR" in ...` substring
tests; a truthy (nonempty) payload is returned unless `silent`. -/
def AT_query (AT_commandline response : String) (silent : Bool) : ATQueryResult :=
  if pyContains (pyToUpper AT_commandline) "#CSURV" then ATQueryResult.csurvBranch
  else
    let rr : Option (Option String × String) :=
      if pyContains response "\r\n\r\n" then
        let parts := pyRpartition response "\r\n\r\n"
        some (some (stripCRLF parts.1), stripCRLF parts.2.2)
      else if pyContains response "\r\n" then some (none, stripCRLF response)
      else none
    match rr with
    | none => ATQueryResult.nameError
    | some (result, result_code) =>
      if pyContains result_code "OK" then
        match result with
        | some r => if r ≠ "" ∧ silent = false then ATQueryResult.retValue r else ATQueryResult.retNone
        | none => ATQueryResult.retNone
      else if pyContains result_code "ERROR" then
        ATQueryResult.atCommandError AT_commandline result_code
      else ATQueryResult.modemError

/-! ## Framed responses

A verbose-mode response as `readlines()` captures it (see the `AT_query`
docstring: `<CR><LF>info<CR><LF>...<CR><LF><CR><LF>OK<CR><LF>`): a leading
blank line, each information line with its `\r\n` terminator, a separating
blank line, and the result-code line. -/

/-- The captured line list for a response with the given information-line
contents and result-code content (both without terminators). -/
def framedResponse (infos : List String) (rc : String) : List String :=
  "\r\n" :: (infos.map (fun l => l ++ "\r\n") ++ ["\r\n", rc ++ "\r\n"])

/-- A line content that is nonempty and free of CR and LF characters, the
shape of every real information line and result code. -/
def cleanLine (s : String) : Bool :=
  s != "" && s.data.all (fun c => !(c == '\r' || c == '\n'))

/-- The line list `cmd_query`'s two processing loops leave in front of the
result code, as a function of the information lines: the skip-a-slot
artefact of `remove` inside a `for` loop turns the leading double blank of a
zero-information response into one leftover line, stripped to `""`. -/
def payloadOf (infos : List String) : List String :=
  if infos.isEmpty then [""] else infos

theorem cleanLine_ne_empty {s : String} (h : cleanLine s = true) : s ≠ "" := by
  have := (Bool.and_eq_true _ _).mp h
  simpa [bne_iff_ne] using this.1

theorem cleanLine_no_cr {s : String} (h : cleanLine s = true) : '\r' ∉ s.data := by
  intro hc
  have := (Bool.and_eq_true _ _).mp h
  have hall := List.all_eq_true.mp this.2 _ hc
  simp at hall

theorem cleanLine_chars {s : String} (h : cleanLine s = true) :
    ∀ c ∈ s.data, memChars ['\r', '\n'] c = false := by
  intro c hc
  have h2 := ((Bool.and_eq_true _ _).mp h).2
  have hall := List.all_eq_true.mp h2 _ hc
  simp only [Bool.not_eq_eq_eq_not, Bool.not_true, Bool.or_eq_false_iff,
    beq_eq_false_iff_ne] at hall
  simp [memChars, hall.1, hall.2]

theorem data_append_crlf (l : String) : (l ++ "\r\n").data = l.data ++ ['\r', '\n'] := by
  rw [String.data_append]

theorem append_crlf_ne_blank {l : String} (h : cleanLine l = true) :
    isBlankLine (l ++ "\r\n") = false := by
  have hne := cleanLine_ne_empty h
  have hdata : l.data ≠ [] := fun hd => hne (String.ext (by simpa using hd))
  simp only [isBlankLine, Bool.or_eq_false_iff, beq_eq_false_iff_ne]
  constructor
  · intro he
    have hd := congrArg String.data he
    rw [data_append_crlf] at hd
    exact hdata (List.append_left_eq_self.mp (hd.trans rfl))
  · intro he
    have hd := congrArg String.data he
    rw [data_append_crlf] at hd
    simp at hd

theorem isInfixL_self_suffix (pat : List Char) (hp : pat ≠ []) :
    ∀ l, isInfixL pat (l ++ pat) = true := by
  intro l
  induction l with
  | nil =>
    obtain ⟨c, t, rfl⟩ : ∃ c t, pat = c :: t := by
      cases pat with
      | nil => exact absurd rfl hp
      | cons c t => exact ⟨c, t, rfl⟩
    simp only [List.nil_append, isInfixL]
    have : (c :: t).isPrefixOf (c :: t) = true :=
      List.isPrefixOf_iff_prefix.mpr (List.prefix_refl _)
    simp [this]
  | cons c l ih =>
    simp only [List.cons_append, isInfixL, List.append_eq, ih, Bool.or_true]

theorem isInfixL_mem (pat : List Char) :
    ∀ s, isInfixL pat s = true → ∀ c ∈ pat, c ∈ s := by
  intro s
  induction s with
  | nil =>
    intro h c hc
    simp only [isInfixL, List.isEmpty_iff] at h
    subst h
    simp at hc
  | cons a rest ih =>
    intro h c hc
    rcases Bool.or_eq_true _ _ |>.mp h with hpre | hin
    · exact (List.isPrefixOf_iff_prefix.mp hpre).subset hc
    · exact List.mem_cons_of_mem a (ih hin c hc)

theorem pyContains_crlf_of_clean {l : String} (h : cleanLine l = true) :
    pyContains l "\r\n" = false := by
  by_contra hcon
  have ht : isInfixL "\r\n".data l.data = true := by
    simpa [pyContains] using hcon
  have : '\r' ∈ l.data := isInfixL_mem _ _ ht '\r' (by decide)
  exact cleanLine_no_cr h this

theorem pyContains_append_crlf (l : String) : pyContains (l ++ "\r\n") "\r\n" = true := by
  simpa [pyContains, data_append_crlf] using
    isInfixL_self_suffix "\r\n".data (by decide) l.data

theorem dropWhileAllFalse (p : Char → Bool) :
    ∀ m : List Char, (∀ c ∈ m, p c = false) → m.dropWhile p = m := by
  intro m hm
  cases m with
  | nil => rfl
  | cons c t => simp [List.dropWhile_cons, hm c (List.mem_cons_self c t)]

theorem stripCRLF_append {l : String} (h : cleanLine l = true) :
    stripCRLF (l ++ "\r\n") = l := by
  have hne := cleanLine_ne_empty h
  have hdata : l.data ≠ [] := fun hd => hne (String.ext (by simpa using hd))
  obtain ⟨c, t, hct⟩ : ∃ c t, l.data = c :: t := by
    cases hl : l.data with
    | nil => exact absurd hl hdata
    | cons c t => exact ⟨c, t, rfl⟩
  have hchars : ∀ x ∈ l.data, memChars ['\r', '\n'] x = false := by
    intro x hx
    have := cleanLine_chars h x hx
    simpa [memChars] using this
  apply String.ext
  simp only [stripCRLF, pyStripChars, data_append_crlf, hct]
  have hc : memChars ['\r', '\n'] c = false := hchars c (by rw [hct]; exact List.mem_cons_self c t)
  rw [List.cons_append, List.dropWhile_cons, hc]
  simp only [Bool.false_eq_true, if_false]
  have hall2 : ∀ x ∈ t.reverse ++ [c], memChars ['\r', '\n'] x = false := by
    intro x hx
    apply hchars x
    rw [hct]
    rcases List.mem_append.mp hx with hx1 | hx1
    · exact List.mem_cons_of_mem c (List.mem_reverse.mp hx1)
    · simp only [List.mem_singleton] at hx1
      rw [hx1]
      exact List.mem_cons_self c t
  have hrev : (c :: (t ++ ['\r', '\n'])).reverse = '\n' :: '\r' :: (t.reverse ++ [c]) := by
    simp
  rw [hrev]
  have h1 : memChars ['\r', '\n'] '\n' = true := rfl
  have h2 : memChars ['\r', '\n'] '\r' = true := rfl
  rw [List.dropWhile_cons, h1, if_pos rfl, List.dropWhile_cons, h2, if_pos rfl,
    dropWhileAllFalse _ _ hall2]
  simp

/-! ## Behaviour of the two `cmd_query` loops on framed responses -/

theorem pyRemoveLoop_succ_none {n : Nat} {s : List String} {i : Nat} (h : s.get? i = none) :
    pyRemoveLoop (n + 1) s i = s := by
  simp only [pyRemoveLoop, h]

theorem pyRemoveLoop_succ_blank {n : Nat} {s : List String} {i : Nat} {x : String}
    (h : s.get? i = some x) (hb : isBlankLine x = true) :
    pyRemoveLoop (n + 1) s i = pyRemoveLoop n (pyRemoveFirst x s) (i + 1) := by
  simp only [pyRemoveLoop, h, hb, if_true]

theorem pyRemoveLoop_succ_keep {n : Nat} {s : List String} {i : Nat} {x : String}
    (h : s.get? i = some x) (hb : isBlankLine x = false) :
    pyRemoveLoop (n + 1) s i = pyRemoveLoop n s (i + 1) := by
  simp only [pyRemoveLoop, h, hb, Bool.false_eq_true, if_false]

theorem pyStripLoop_succ_none {n : Nat} {s : List String} {i : Nat} (h : s.get? i = none) :
    pyStripLoop (n + 1) s i = s := by
  simp only [pyStripLoop, h]

theorem pyStripLoop_succ_strip {n : Nat} {s : List String} {i : Nat} {x : String}
    (h : s.get? i = some x) (hb : pyContains x "\r\n" = true) :
    pyStripLoop (n + 1) s i = pyStripLoop n (pySetFirst x (stripCRLF x) s) (i + 1) := by
  simp only [pyStripLoop, h, hb, if_true]

theorem pyStripLoop_succ_keep {n : Nat} {s : List String} {i : Nat} {x : String}
    (h : s.get? i = some x) (hb : pyContains x "\r\n" = false) :
    pyStripLoop (n + 1) s i = pyStripLoop n s (i + 1) := by
  simp only [pyStripLoop, h, hb, Bool.false_eq_true, if_false]

theorem pyRemoveLoop_cons (x : String) (hx : isBlankLine x = false) :
    ∀ (fuel : Nat) (s : List String) (i : Nat),
      pyRemoveLoop fuel (x :: s) (i + 1) = x :: pyRemoveLoop fuel s i := by
  intro fuel
  induction fuel with
  | zero => intro s i; rfl
  | succ n ih =>
    intro s i
    cases hg : s.get? i with
    | none =>
      have hg2 : (x :: s).get? (i + 1) = none := by
        rw [List.get?_cons_succ, hg]
      rw [pyRemoveLoop_succ_none hg2, pyRemoveLoop_succ_none hg]
    | some y =>
      have hg2 : (x :: s).get? (i + 1) = some y := by
        rw [List.get?_cons_succ, hg]
      by_cases hy : isBlankLine y = true
      · have hxy : x ≠ y := by
          intro he
          rw [he, hy] at hx
          cases hx
        have hrem : pyRemoveFirst y (x :: s) = x :: pyRemoveFirst y s := by
          simp [pyRemoveFirst, hxy]
        rw [pyRemoveLoop_succ_blank hg2 hy, pyRemoveLoop_succ_blank hg hy, hrem]
        exact ih (pyRemoveFirst y s) (i + 1)
      · have hy' : isBlankLine y = false := by
          cases hyv : isBlankLine y with
          | false => rfl
          | true => exact absurd hyv hy
        rw [pyRemoveLoop_succ_keep hg2 hy', pyRemoveLoop_succ_keep hg hy']
        exact ih s (i + 1)

theorem pyRemoveLoop_no_blanks :
    ∀ (fuel : Nat) (s : List String) (i : Nat),
      (∀ j x, i ≤ j → s.get? j = some x → isBlankLine x = false) →
      pyRemoveLoop fuel s i = s := by
  intro fuel
  induction fuel with
  | zero => intro s i _; rfl
  | succ n ih =>
    intro s i h
    cases hg : s.get? i with
    | none => exact pyRemoveLoop_succ_none hg
    | some x =>
      rw [pyRemoveLoop_succ_keep hg (h i x le_rfl hg)]
      exact ih s (i + 1) (fun j y hj hg2 => h j y (by omega) hg2)

theorem pyRemoveLoop_mid (rc : String) :
    ∀ (rest : List String) (fuel : Nat), rest.length + 1 ≤ fuel →
      (∀ l ∈ rest, cleanLine l = true) →
      pyRemoveLoop fuel (rest.map (fun l => l ++ "\r\n") ++ ["\r\n", rc ++ "\r\n"]) 0 =
        rest.map (fun l => l ++ "\r\n") ++ [rc ++ "\r\n"] := by
  intro rest
  induction rest with
  | nil =>
    intro fuel hf hcl
    obtain ⟨m, rfl⟩ : ∃ m, fuel = m + 1 := ⟨fuel - 1, by omega⟩
    have hget : (["\r\n", rc ++ "\r\n"] : List String).get? 0 = some "\r\n" := rfl
    have hrem : pyRemoveFirst "\r\n" ["\r\n", rc ++ "\r\n"] = [rc ++ "\r\n"] := by
      simp [pyRemoveFirst]
    simp only [List.map_nil, List.nil_append]
    rw [pyRemoveLoop_succ_blank hget rfl, hrem]
    apply pyRemoveLoop_no_blanks
    intro j x hj hg
    cases j with
    | zero => omega
    | succ k => simp [List.get?] at hg
  | cons a rest ih =>
    intro fuel hf hcl
    obtain ⟨m, rfl⟩ : ∃ m, fuel = m + 1 := ⟨fuel - 1, by omega⟩
    have ha : cleanLine a = true := hcl a (List.mem_cons_self a rest)
    simp only [List.map_cons, List.cons_append]
    have hget : ((a ++ "\r\n") :: (rest.map (fun l => l ++ "\r\n") ++ ["\r\n", rc ++ "\r\n"])).get? 0
        = some (a ++ "\r\n") := rfl
    rw [pyRemoveLoop_succ_keep hget (append_crlf_ne_blank ha)]
    rw [show (0 : Nat) + 1 = 0 + 1 from rfl]
    rw [pyRemoveLoop_cons (a ++ "\r\n") (append_crlf_ne_blank ha) m _ 0]
    rw [ih m (by simpa using Nat.le_of_succ_le_succ hf)
      (fun l hl => hcl l (List.mem_cons_of_mem a hl))]

theorem removeBlank_framed (infos : List String) (rc : String)
    (hinfos : ∀ l ∈ infos, cleanLine l = true) (hrc : cleanLine rc = true) :
    removeBlankLines (framedResponse infos rc) =
      (if infos.isEmpty then ["\r\n", rc ++ "\r\n"]
       else infos.map (fun l => l ++ "\r\n") ++ [rc ++ "\r\n"]) := by
  unfold removeBlankLines framedResponse
  have hlen : ("\r\n" :: (infos.map (fun l => l ++ "\r\n") ++ ["\r\n", rc ++ "\r\n"])).length
      = (infos.length + 2) + 1 := by simp
  rw [hlen]
  have hget : ("\r\n" :: (infos.map (fun l => l ++ "\r\n") ++ ["\r\n", rc ++ "\r\n"])).get? 0
      = some "\r\n" := rfl
  rw [pyRemoveLoop_succ_blank hget rfl]
  have hrem : pyRemoveFirst "\r\n"
      ("\r\n" :: (infos.map (fun l => l ++ "\r\n") ++ ["\r\n", rc ++ "\r\n"]))
      = infos.map (fun l => l ++ "\r\n") ++ ["\r\n", rc ++ "\r\n"] := by
    simp [pyRemoveFirst]
  rw [hrem]
  cases infos with
  | nil =>
    simp only [List.map_nil, List.nil_append, List.isEmpty_nil, if_true, List.length_nil]
    have hget1 : (["\r\n", rc ++ "\r\n"] : List String).get? (0 + 1) = some (rc ++ "\r\n") := rfl
    rw [show (0 : Nat) + 2 = 1 + 1 from rfl]
    rw [pyRemoveLoop_succ_keep hget1 (append_crlf_ne_blank hrc)]
    apply pyRemoveLoop_no_blanks
    intro j x hj hg
    rcases j with _ | _ | k
    · omega
    · omega
    · simp [List.get?] at hg
  | cons a rest =>
    have ha : cleanLine a = true := hinfos a (List.mem_cons_self a rest)
    simp only [List.map_cons, List.cons_append, List.isEmpty_cons, List.length_cons]
    rw [show rest.length + 1 + 2 = (rest.length + 2) + 1 from rfl]
    rw [pyRemoveLoop_cons (a ++ "\r\n") (append_crlf_ne_blank ha) (rest.length + 2 + 1) _ 0]
    rw [pyRemoveLoop_mid rc rest (rest.length + 2 + 1) (by omega)
      (fun l hl => hinfos l (List.mem_cons_of_mem a hl))]
    simp

theorem pyStripLoop_cons (x : String) (hx : pyContains x "\r\n" = false) :
    ∀ (fuel : Nat) (s : List String) (i : Nat),
      pyStripLoop fuel (x :: s) (i + 1) = x :: pyStripLoop fuel s i := by
  intro fuel
  induction fuel with
  | zero => intro s i; rfl
  | succ n ih =>
    intro s i
    cases hg : s.get? i with
    | none =>
      have hg2 : (x :: s).get? (i + 1) = none := by
        rw [List.get?_cons_succ, hg]
      rw [pyStripLoop_succ_none hg2, pyStripLoop_succ_none hg]
    | some y =>
      have hg2 : (x :: s).get? (i + 1) = some y := by
        rw [List.get?_cons_succ, hg]
      by_cases hy : pyContains y "\r\n" = true
      · have hxy : x ≠ y := by
          intro he
          rw [he, hy] at hx
          cases hx
        have hset : pySetFirst y (stripCRLF y) (x :: s) = x :: pySetFirst y (stripCRLF y) s := by
          simp [pySetFirst, hxy]
        rw [pyStripLoop_succ_strip hg2 hy, pyStripLoop_succ_strip hg hy, hset]
        exact ih (pySetFirst y (stripCRLF y) s) (i + 1)
      · have hy' : pyContains y "\r\n" = false := by
          cases hyv : pyContains y "\r\n" with
          | false => rfl
          | true => exact absurd hyv hy
        rw [pyStripLoop_succ_keep hg2 hy', pyStripLoop_succ_keep hg hy']
        exact ih s (i + 1)

theorem pyStripLoop_no_matches :
    ∀ (fuel : Nat) (s : List String) (i : Nat),
      (∀ j x, i ≤ j → s.get? j = some x → pyContains x "\r\n" = false) →
      pyStripLoop fuel s i = s := by
  intro fuel
  induction fuel with
  | zero => intro s i _; rfl
  | succ n ih =>
    intro s i h
    cases hg : s.get? i with
    | none => exact pyStripLoop_succ_none hg
    | some x =>
      rw [pyStripLoop_succ_keep hg (h i x le_rfl hg)]
      exact ih s (i + 1) (fun j y hj hg2 => h j y (by omega) hg2)

theorem stripLoop_framed (rc : String) (hrc : cleanLine rc = true) :
    ∀ (u : List String) (fuel : Nat), u.length + 1 ≤ fuel →
      (∀ l ∈ u, cleanLine l = true) →
      pyStripLoop fuel (u.map (fun l => l ++ "\r\n") ++ [rc ++ "\r\n"]) 0 = u ++ [rc] := by
  intro u
  induction u with
  | nil =>
    intro fuel hf hcl
    obtain ⟨m, rfl⟩ : ∃ m, fuel = m + 1 := ⟨fuel - 1, by omega⟩
    simp only [List.map_nil, List.nil_append]
    have hget : ([rc ++ "\r\n"] : List String).get? 0 = some (rc ++ "\r\n") := rfl
    rw [pyStripLoop_succ_strip hget (pyContains_append_crlf rc)]
    have hset : pySetFirst (rc ++ "\r\n") (stripCRLF (rc ++ "\r\n")) [rc ++ "\r\n"] = [rc] := by
      simp [pySetFirst, stripCRLF_append hrc]
    rw [hset]
    apply pyStripLoop_no_matches
    intro j x hj hg
    cases j with
    | zero => omega
    | succ k => simp [List.get?] at hg
  | cons a u ih =>
    intro fuel hf hcl
    obtain ⟨m, rfl⟩ : ∃ m, fuel = m + 1 := ⟨fuel - 1, by omega⟩
    have ha : cleanLine a = true := hcl a (List.mem_cons_self a u)
    simp only [List.map_cons, List.cons_append]
    have hget : ((a ++ "\r\n") :: (u.map (fun l => l ++ "\r\n") ++ [rc ++ "\r\n"])).get? 0
        = some (a ++ "\r\n") := rfl
    rw [pyStripLoop_succ_strip hget (pyContains_append_crlf a)]
    have hset : pySetFirst (a ++ "\r\n") (stripCRLF (a ++ "\r\n"))
        ((a ++ "\r\n") :: (u.map (fun l => l ++ "\r\n") ++ [rc ++ "\r\n"]))
        = a :: (u.map (fun l => l ++ "\r\n") ++ [rc ++ "\r\n"]) := by
      simp [pySetFirst, stripCRLF_append ha]
    rw [hset]
    rw [pyStripLoop_cons a (pyContains_crlf_of_clean ha) m _ 0]
    rw [ih m (by simpa using Nat.le_of_succ_le_succ hf)
      (fun l hl => hcl l (List.mem_cons_of_mem a hl))]

/-- The combined effect of the two processing loops of `cmd_query` on a
framed response: the blanks disappear (except the artefact of the
zero-information case, which strips down to `""`), the information lines and
the result code lose their terminators, and the result code stays last. -/
theorem pipeline_framed (infos : List String) (rc : String)
    (hinfos : ∀ l ∈ infos, cleanLine l = true) (hrc : cleanLine rc = true) :
    stripResponseLines (removeBlankLines (framedResponse infos rc)) = payloadOf infos ++ [rc] := by
  rw [removeBlank_framed infos rc hinfos hrc]
  cases infos with
  | nil =>
    simp only [List.isEmpty_nil, if_true, payloadOf]
    unfold stripResponseLines
    have hget : (["\r\n", rc ++ "\r\n"] : List String).get? 0 = some "\r\n" := rfl
    have hcrlf : pyContains "\r\n" "\r\n" = true := rfl
    rw [show (["\r\n", rc ++ "\r\n"] : List String).length = 1 + 1 from rfl]
    rw [pyStripLoop_succ_strip hget hcrlf]
    have hset : pySetFirst "\r\n" (stripCRLF "\r\n") ["\r\n", rc ++ "\r\n"]
        = ["", rc ++ "\r\n"] := by
      simp [pySetFirst]
      rfl
    rw [hset]
    rw [pyStripLoop_cons "" (by rfl) 1 [rc ++ "\r\n"] 0]
    have hget2 : ([rc ++ "\r\n"] : List String).get? 0 = some (rc ++ "\r\n") := rfl
    rw [pyStripLoop_succ_strip hget2 (pyContains_append_crlf rc)]
    have hset2 : pySetFirst (rc ++ "\r\n") (stripCRLF (rc ++ "\r\n")) [rc ++ "\r\n"] = [rc] := by
      simp [pySetFirst, stripCRLF_append hrc]
    rw [hset2]
    rfl
  | cons a rest =>
    simp only [List.isEmpty_cons, Bool.false_eq_true, if_false, payloadOf]
    unfold stripResponseLines
    have hlen : ((a :: rest).map (fun l => l ++ "\r\n") ++ [rc ++ "\r\n"]).length
        = (a :: rest).length + 1 := by simp
    rw [hlen]
    exact stripLoop_framed rc hrc (a :: rest) ((a :: rest).length + 1) le_rfl hinfos

/-! ## Theorems for C2, C3, C7, C9, C10 -/

/-- C2 amended: for every framed response whose terminal line contains
`ERROR` — provided it does not also contain `OK` as a substring, since the
code tests `"OK" in result_code` first — `cmd_query` raises `ATCommandError`
carrying the original command line and the result-code text, regardless of
how many InformationLines (zero or more) preceded the terminal line, and the
response is not classified as success. -/
theorem c2_error_terminal_amended (cmd : String) (hcmd : startsWithHTTPRCV cmd = false)
    (tmo : Option ℚ) (multiline : Bool) (st : ℚ) (infos : List String) (rc : String)
    (hinfos : ∀ l ∈ infos, cleanLine l = true) (hrc : cleanLine rc = true)
    (hERR : pyContains rc "ERROR" = true) (hOK : pyContains rc "OK" = false) :
    (cmd_query cmd tmo multiline (framedResponse infos rc) st).1 =
      CmdQueryResult.atCommandError cmd rc := by
  unfold cmd_query
  simp only [hcmd, Bool.false_eq_true, if_false, pipeline_framed infos rc hinfos hrc,
    List.getLast?_concat, List.dropLast_concat, hOK, hERR, if_true]

/-- C2 amended, witness at a concrete error transaction. -/
theorem c2_error_terminal_amended_witness :
    pyContains "+CME ERROR: SIM not inserted" "ERROR" = true ∧
    pyContains "+CME ERROR: SIM not inserted" "OK" = false ∧
    (cmd_query "AT+CPIN?" none false (framedResponse [] "+CME ERROR: SIM not inserted") 1).1 =
      CmdQueryResult.atCommandError "AT+CPIN?" "+CME ERROR: SIM not inserted" := by
  refine ⟨by decide, by decide, ?_⟩
  exact c2_error_terminal_amended "AT+CPIN?" (by decide) none false 1 []
    "+CME ERROR: SIM not inserted" (by intro l hl; cases hl) (by decide) (by decide) (by decide)

/-- C2 counterexample: a captured response whose terminal (and only
non-empty) line is `+CME ERROR: NOT OK` contains `ERROR`, yet `cmd_query`
classifies it as success and returns an empty payload, because the `"OK" in
result_code` substring test fires first. -/
theorem c2_counterexample :
    pyContains "+CME ERROR: NOT OK" "ERROR" = true ∧
    (cmd_query "AT+FOO" none false ["\r\n", "+CME ERROR: NOT OK\r\n"] 1).1 =
      CmdQueryResult.value "" := by
  refine ⟨by decide, by decide⟩

/-- C3 amended: a framed response is classified as success exactly when the
terminal line, after stripping CR/LF, CONTAINS `OK` as a substring (the code
uses `"OK" in result_code`, not an equality test); in that case, in multiline
mode, the processed prior lines — the InformationLines, or the one empty-line
artefact a zero-information response leaves — are returned. -/
theorem c3_success_iff_ok_substring (cmd : String) (hcmd : startsWithHTTPRCV cmd = false)
    (tmo : Option ℚ) (st : ℚ) (infos : List String) (rc : String)
    (hinfos : ∀ l ∈ infos, cleanLine l = true) (hrc : cleanLine rc = true) :
    ((cmd_query cmd tmo true (framedResponse infos rc) st).1 =
        CmdQueryResult.values (payloadOf infos)) ↔ pyContains rc "OK" = true := by
  unfold cmd_query
  simp only [hcmd, Bool.false_eq_true, if_false, pipeline_framed infos rc hinfos hrc,
    List.getLast?_concat, List.dropLast_concat]
  by_cases hOK : pyContains rc "OK" = true
  · simp [hOK]
  · by_cases hERR : pyContains rc "ERROR" = true <;> simp [hOK, hERR]

/-- C3 amended, witness at a concrete successful query. -/
theorem c3_success_iff_ok_substring_witness :
    (cmd_query "AT+CSQ" none true (framedResponse ["+CSQ: 23,99"] "OK") 1).1 =
      CmdQueryResult.values ["+CSQ: 23,99"] := by
  have h := c3_success_iff_ok_substring "AT+CSQ" (by decide) none 1 ["+CSQ: 23,99"] "OK"
    (by decide) (by decide)
  exact h.mpr (by decide)

/-- C3 counterexample: the claim requires success exactly when the stripped
terminal line EQUALS `OK`; but for a response whose only non-empty line is
`TOKEN` — whose stripped form is not `OK` — `cmd_query` still classifies
success (the substring `OK` inside `TOKEN` satisfies `"OK" in result_code`). -/
theorem c3_counterexample :
    (cmd_query "AT+FOO" none false ["\r\n", "TOKEN\r\n"] 1).1 = CmdQueryResult.value "" ∧
    stripCRLF "TOKEN\r\n" ≠ "OK" := by
  refine ⟨by decide, by decide⟩

/-- C7: a response whose only non-empty line is `OK` is classified as success
with an empty payload, in both engines and in both shaping modes; no error is
raised.  The first conjunct uses the exact `\r\nOK\r\n` capture, the second
the minimal one-line capture, the third multiline shaping, and the fourth the
string-level `AT_query` engine. -/
theorem c7_pure_ok_empty_success :
    cmd_query "AT" none false ["\r\n", "OK\r\n"] 1 = (CmdQueryResult.value "", 1) ∧
    cmd_query "AT" none false ["OK\r\n"] 1 = (CmdQueryResult.value "", 1) ∧
    cmd_query "AT" none true ["\r\n", "OK\r\n"] 1 = (CmdQueryResult.values [], 1) ∧
    AT_query "AT" "\r\nOK\r\n" false = ATQueryResult.retNone := by
  refine ⟨by decide, by decide, by decide, by decide⟩

/-- C9: when `cmd_query` is called with a truthy read-timeout override and
the transaction ends in `ATCommandError` (terminal `ERROR`) or `ModemError`
(missing/unknown result code), the serial handle's `timeout` attribute is
left equal to the override; the original value is restored only when the
transaction succeeds.  (The `raise` on lines 320 and 331 skips the restore on
lines 335-336.) -/
theorem c9_timeout_restored_only_on_success (cmd : String) (t st : ℚ) (multiline : Bool)
    (lines : List String) (hcmd : startsWithHTTPRCV cmd = false) (ht : t ≠ 0) :
    (((cmd_query cmd (some t) multiline lines st).1 = CmdQueryResult.modemError ∨
        ∃ rc, (cmd_query cmd (some t) multiline lines st).1 = CmdQueryResult.atCommandError cmd rc) →
      (cmd_query cmd (some t) multiline lines st).2 = t) ∧
    (((∃ s2, (cmd_query cmd (some t) multiline lines st).1 = CmdQueryResult.value s2) ∨
        ∃ ls, (cmd_query cmd (some t) multiline lines st).1 = CmdQueryResult.values ls) →
      (cmd_query cmd (some t) multiline lines st).2 = st) := by
  have hact : pyTruthyFloat (some t) = true := by
    simp [pyTruthyFloat, bne_iff_ne, ht]
  unfold cmd_query
  simp only [hcmd, Bool.false_eq_true, if_false, hact, if_true, Option.getD_some]
  cases hL : (stripResponseLines (removeBlankLines lines)).getLast? with
  | none => simp
  | some rc =>
    by_cases hOK : pyContains rc "OK" = true
    · by_cases hml : multiline
      · simp [hOK, hml]
      · cases hD : (stripResponseLines (removeBlankLines lines)).dropLast with
        | nil => simp [hOK, hml, hD]
        | cons x xs => simp [hOK, hml, hD]
    · by_cases hERR : pyContains rc "ERROR" = true <;> simp [hOK, hERR]

/-- C9 witness: an `ERROR` transaction with override 60 leaves the timeout at
60; the same successful transaction restores the original value. -/
theorem c9_timeout_restored_only_on_success_witness :
    (cmd_query "AT+CSQ" (some 60) false ["\r\n", "ERROR\r\n"] (1/10)).2 = 60 ∧
    (cmd_query "AT+CSQ" (some 60) false ["\r\n", "+CSQ: 23,99\r\n", "\r\n", "OK\r\n"] (1/10)).2
      = 1/10 := by
  constructor
  · exact (c9_timeout_restored_only_on_success "AT+CSQ" 60 (1/10) false
      ["\r\n", "ERROR\r\n"] (by decide) (by norm_num)).1 (Or.inr ⟨"ERROR", by decide⟩)
  · exact (c9_timeout_restored_only_on_success "AT+CSQ" 60 (1/10) false
      ["\r\n", "+CSQ: 23,99\r\n", "\r\n", "OK\r\n"] (by decide) (by norm_num)).2
      (Or.inl ⟨"+CSQ: 23,99", by decide⟩)

/-- C10: in single-line mode, a successful framed response with two or more
InformationLines makes `cmd_query` return only the first InformationLine; the
others are silently discarded. -/
theorem c10_single_line_returns_first (cmd : String) (hcmd : startsWithHTTPRCV cmd = false)
    (tmo : Option ℚ) (st : ℚ) (a b : String) (rest : List String)
    (ha : cleanLine a = true) (hb : cleanLine b = true)
    (hrest : ∀ l ∈ rest, cleanLine l = true) :
    (cmd_query cmd tmo false (framedResponse (a :: b :: rest) "OK") st).1 =
      CmdQueryResult.value a := by
  have hinfos : ∀ l ∈ (a :: b :: rest), cleanLine l = true := by
    intro l hl
    rcases List.mem_cons.mp hl with rfl | hl2
    · exact ha
    rcases List.mem_cons.mp hl2 with rfl | hl3
    · exact hb
    · exact hrest l hl3
  unfold cmd_query
  simp only [hcmd, Bool.false_eq_true, if_false,
    pipeline_framed (a :: b :: rest) "OK" hinfos (by decide),
    List.getLast?_concat, List.dropLast_concat]
  simp [payloadOf, show pyContains "OK" "OK" = true from by decide]

/-- C10 witness: a two-line `+CGDCONT?` style response in single-line mode
yields only the first line. -/
theorem c10_single_line_returns_first_witness :
    (cmd_query "AT+CGDCONT?" none false
        (framedResponse ["+CGDCONT: 1", "+CGDCONT: 2"] "OK") 1).1 =
      CmdQueryResult.value "+CGDCONT: 1" := by
  exact c10_single_line_returns_first "AT+CGDCONT?" (by decide) none 1
    "+CGDCONT: 1" "+CGDCONT: 2" [] (by decide) (by decide) (by intro l hl; cases hl)

end PiCSQ
